import Mathlib

/-!
Verification of the URL ingestion and matching engine of the url_recorder
browser extension (src/background.js, with the popup UI in popup.js as a
client).  The background script keeps an in-memory cache of the recorded
URL list and the active pattern list; chrome.storage.local and the cache
are kept in sync by the storage.onChanged listener, so the pair is
modelled as a single `BackgroundState`.  The host regular-expression
engine (JavaScript `RegExp`) is an external facility and is abstracted as
a `RegexEngine` parameter; a small concrete instance models its behaviour
on the literal patterns used in the test scenarios.
-/

/-- Boolean test that the first character list is a prefix of the second
(models JavaScript `String.prototype.startsWith` on the decoded
characters). -/
def leadsWith : List Char → List Char → Bool
  | [], _ => true
  | _ :: _, [] => false
  | a :: as, b :: bs => a == b && leadsWith as bs

/-- Boolean test that the first character list occurs contiguously inside
the second. -/
def occursIn (n : List Char) : List Char → Bool
  | [] => leadsWith n []
  | b :: bs => leadsWith n (b :: bs) || occursIn n bs

/-- Balanced-parenthesis check with an explicit open-parenthesis depth. -/
def parensOk : List Char → Nat → Bool
  | [], 0 => true
  | [], _ + 1 => false
  | c :: cs, d =>
    if c == '(' then parensOk cs (d + 1)
    else if c == ')' then
      match d with
      | 0 => false
      | e + 1 => parensOk cs e
    else parensOk cs d

/-- Splits a character list at the first occurrence of `c`: returns the
part before it and, when `c` occurs, the part after it. -/
def splitFirstChar (c : Char) : List Char → List Char × Option (List Char)
  | [] => ([], none)
  | a :: as =>
    if a == c then ([], some as)
    else
      let r := splitFirstChar c as
      (a :: r.1, r.2)

/-- Splits a character list at every occurrence of `c` (models JavaScript
`String.prototype.split` on a single-character separator). -/
def splitAllChar (c : Char) : List Char → List (List Char)
  | [] => [[]]
  | a :: as =>
    if a == c then [] :: splitAllChar c as
    else
      match splitAllChar c as with
      | [] => [[a]]
      | h :: t => (a :: h) :: t

/-- Joins character lists with the separator `c` between consecutive
pieces (models JavaScript `Array.prototype.join`). -/
def joinChar (c : Char) : List (List Char) → List Char
  | [] => []
  | [x] => x
  | x :: y :: t => x ++ c :: joinChar c (y :: t)

/-- String version of `leadsWith` (models `url.startsWith(p)`). -/
def strStarts (s p : String) : Bool :=
  leadsWith p.data s.data

/-- Removal of leading and trailing whitespace (models JavaScript
`String.prototype.trim`, which the setTargetPatterns handler applies to
each submitted pattern). -/
def strTrim (s : String) : String :=
  String.mk (((s.data.dropWhile Char.isWhitespace).reverse.dropWhile
    Char.isWhitespace).reverse)

/-- Abstraction of the host regular-expression facility used by
background.js.  `compile p` tells whether `new RegExp(p, "i")` succeeds
(the pattern is syntactically valid); `test p url` tells whether the
compiled case-insensitive regular expression accepts `url`. -/
structure RegexEngine where
  compile : String → Bool
  test : String → String → Bool

/-- Concrete stand-in for the host `RegExp` engine, used to instantiate
scenarios: a pattern is valid when its parentheses are balanced, and a
valid pattern matches a url when it occurs in it literally, case
insensitively.  This agrees with the JavaScript engine on the literal
patterns exercised below (an unbalanced "(unclosed" throws in
`new RegExp`, and a parenthesis-free literal pattern matches exactly the
urls containing it, case-insensitively, under the "i" flag). -/
def jsRegexModel : RegexEngine where
  compile p := parensOk p.data 0
  test p url := occursIn (p.data.map Char.toLower) (url.data.map Char.toLower)

/-- Embedding of `matchesAnyPattern(url, patterns)` from background.js:
returns false when the url is empty or no patterns are set; otherwise
walks the patterns in order, skipping any whose compilation fails, and
returns true on the first compiled pattern whose case-insensitive test
accepts the url. -/
def matchesAnyPattern (E : RegexEngine) (url : String) (patterns : List String) : Bool :=
  if url == "" || patterns.isEmpty then false
  else patterns.any (fun p => E.compile p && E.test p url)

/-- In-memory state of the background script: the cached recorded-URL
list and the cached target-pattern list (chrome.storage.local mirrors
them; the storage.onChanged listener keeps cache and storage in sync, so
both are modelled as this one record). -/
structure BackgroundState where
  recordedUrls : List String
  targetPatterns : List String
deriving DecidableEq

/-- Embedding of `addUrlToStorage(url)` from background.js: when the url
matches some active pattern and is not already present (raw string
equality via `includes`), it is pushed onto the end of the recorded list;
otherwise the state is unchanged. -/
def addUrlToStorage (E : RegexEngine) (s : BackgroundState) (url : String) : BackgroundState :=
  if matchesAnyPattern E url s.targetPatterns then
    if s.recordedUrls.contains url then s
    else { s with recordedUrls := s.recordedUrls ++ [url] }
  else s

/-- Messages handled by the chrome.runtime.onMessage listener in
background.js.  `setTargetPatterns` carries the array sent by the popup
(a non-array payload is treated as the empty list by the handler, so the
payload is modelled as a list of strings). -/
inductive Message where
  | setTargetPatterns (patterns : List String)
  | getRecordedUrls
  | clearRecordedUrls
  | foundUrlsFromContent (urls : List String)

/-- Embedding of the chrome.runtime.onMessage listener of background.js:
setTargetPatterns stores the submitted patterns filtered to those whose
trimmed form is non-empty; getRecordedUrls only reads; clearRecordedUrls
writes the empty recorded list; foundUrlsFromContent runs
`addUrlToStorage` on each received url in array order. -/
def handleMessage (E : RegexEngine) (s : BackgroundState) : Message → BackgroundState
  | Message.setTargetPatterns ps =>
      { s with targetPatterns := ps.filter (fun p => strTrim p != "") }
  | Message.getRecordedUrls => s
  | Message.clearRecordedUrls => { s with recordedUrls := [] }
  | Message.foundUrlsFromContent urls => urls.foldl (addUrlToStorage E) s

/-- Response payload of the getRecordedUrls message: the full recorded
list (the spec's `all()` read-only snapshot). -/
def getRecordedUrlsResponse (s : BackgroundState) : List String :=
  s.recordedUrls

/-- Navigation event payload delivered to the
chrome.webNavigation.onBeforeNavigate listener: the frame identifier
(0 for the main frame) and the navigated url. -/
structure NavDetails where
  frameId : Nat
  url : String

/-- Embedding of the chrome.webNavigation.onBeforeNavigate listener of
background.js: only a main-frame navigation (frameId 0) to an http:// or
https:// url reaches `addUrlToStorage`; every other event leaves the
state untouched. -/
def onBeforeNavigate (E : RegexEngine) (s : BackgroundState) (d : NavDetails) : BackgroundState :=
  if d.frameId == 0 && (strStarts d.url "http://" || strStarts d.url "https://") then
    addUrlToStorage E s d.url
  else s

/-- Modelled from the spec: the background handler for the popup's
setSimplificationSettings message and the normalization-aware
deduplication are absent from the source snapshot (the popup in popup.js
sends setSimplificationSettings and reads isUrlSimplificationEnabled and
ignoredUrlParams, but no background.js variant present implements them).
Spec section 4.2 UrlNormalizer: with an empty `ignoredParams` the url is
returned unchanged; a url that does not parse as an absolute URL is
returned unchanged; otherwise every query parameter whose key (the part
before "=") is in `ignoredParams` (exact, case-sensitive match) is
removed, preserving the order of the remaining parameters, and the url is
reconstructed with scheme, host, path and fragment unchanged. -/
def normalizeUrl (url : String) (ignoredParams : List String) : String :=
  if ignoredParams.isEmpty then url
  else if occursIn "://".data url.data = false then url
  else
    let bodyFrag := splitFirstChar '#' url.data
    let baseQuery := splitFirstChar '?' bodyFrag.1
    match baseQuery.2 with
    | none => url
    | some q =>
      let kept := (splitAllChar '&' q).filter
        (fun p => !(ignoredParams.contains (String.mk (splitFirstChar '=' p).1)))
      let newBody :=
        if kept.isEmpty then baseQuery.1 else baseQuery.1 ++ '?' :: joinChar '&' kept
      match bodyFrag.2 with
      | none => String.mk newBody
      | some f => String.mk (newBody ++ '#' :: f)

/-- Modelled from the spec: the NormalizationConfig of spec section 3,
persisted as the isUrlSimplificationEnabled flag and the ignoredUrlParams
list that the popup reads and writes; the background code holding them is
absent from the source snapshot. -/
structure NormalizationConfig where
  enabled : Bool
  ignoredParams : List String

/-- Modelled from the spec: the key a url is compared under for
deduplication — its normalization when the config enables it, the raw
string otherwise (spec section 3: when `enabled` is false, normalization
is the identity function). -/
def normKey (cfg : NormalizationConfig) (url : String) : String :=
  if cfg.enabled then normalizeUrl url cfg.ignoredParams else url

/-- Modelled from the spec: RecordStore `contains` (spec section 4.3) —
true when some existing entry normalizes to the same key as the url's
normalization.  With normalization disabled this is raw string equality,
exactly the `recordedUrls.includes(url)` check of `addUrlToStorage`. -/
def containsUrl (cfg : NormalizationConfig) (store : List String) (url : String) : Bool :=
  store.any (fun e => normKey cfg e == normKey cfg url)

/-- Modelled from the spec: RecordStore `tryInsert` (spec section 4.3) —
when the url is not contained, the raw url is appended at the end and the
insertion is reported; otherwise the store is returned unchanged. -/
def tryInsert (cfg : NormalizationConfig) (store : List String) (url : String) :
    Bool × List String :=
  if containsUrl cfg store url then (false, store)
  else (true, store ++ [url])

/-- Folding `tryInsert` over a list of submitted urls, keeping only the
resulting store. -/
def insertAll (cfg : NormalizationConfig) (urls : List String) (store : List String) :
    List String :=
  urls.foldl (fun st u => (tryInsert cfg st u).2) store

/-- Normalization disabled: the configuration under which the store
behaves exactly as the raw-equality dedup of `addUrlToStorage`. -/
def rawConfig : NormalizationConfig :=
  { enabled := false, ignoredParams := [] }

/-- Outcome of one ingestion submit (spec section 4.4). -/
inductive SubmitResult where
  | accepted
  | rejectedNoMatch
  | rejectedDuplicate
deriving DecidableEq

/-- Modelled from the spec: IngestionCoordinator `submit` (spec section
4.4) — the url is matched against the current pattern set and, on a
match, handed to `tryInsert` under the current NormalizationConfig; a
failed match reports rejectedNoMatch, a failed insert reports
rejectedDuplicate.  The matching step is `matchesAnyPattern` from
background.js; the normalization-aware insert is the part absent from the
source snapshot. -/
def submit (E : RegexEngine) (cfg : NormalizationConfig) (patterns : List String)
    (store : List String) (url : String) : SubmitResult × List String :=
  if matchesAnyPattern E url patterns then
    match tryInsert cfg store url with
    | (true, st) => (SubmitResult.accepted, st)
    | (false, st) => (SubmitResult.rejectedDuplicate, st)
  else (SubmitResult.rejectedNoMatch, store)


/-- Helper for the dedup invariant: one `tryInsert` step preserves
pairwise distinctness of normalization keys in the store. -/
theorem tryInsert_preserves_pairwise (cfg : NormalizationConfig) (store : List String)
    (u : String)
    (h : store.Pairwise (fun a b => normKey cfg a ≠ normKey cfg b)) :
    ((tryInsert cfg store u).2).Pairwise (fun a b => normKey cfg a ≠ normKey cfg b) := by
  unfold tryInsert
  cases hc : containsUrl cfg store u with
  | true => simpa [hc] using h
  | false =>
    simp only [hc, Bool.false_eq_true, if_false]
    rw [List.pairwise_append]
    refine ⟨h, List.pairwise_singleton _ _, ?_⟩
    intro a ha b hb
    simp only [List.mem_singleton] at hb
    have hf : ∀ x ∈ store, ¬ normKey cfg x = normKey cfg u := by
      simpa [containsUrl] using hc
    rw [hb]
    exact hf a ha

/-- C2: starting from the empty store, any sequence of `tryInsert` calls
leaves a store in which no two elements have equal normalization keys
under the active configuration; with normalization disabled `normKey` is
the raw string, so this is raw-string distinctness. -/
theorem tryInsert_dedup_invariant (cfg : NormalizationConfig) (urls : List String) :
    (insertAll cfg urls []).Pairwise (fun a b => normKey cfg a ≠ normKey cfg b) := by
  suffices h : ∀ (us store : List String),
      store.Pairwise (fun a b => normKey cfg a ≠ normKey cfg b) →
      (insertAll cfg us store).Pairwise (fun a b => normKey cfg a ≠ normKey cfg b) from
    h urls [] List.Pairwise.nil
  intro us
  induction us with
  | nil => intro store h; exact h
  | cons u rest ih =>
    intro store h
    exact ih _ (tryInsert_preserves_pairwise cfg store u h)

/-- C1: with normalization enabled and ignoredParams = ["x"], submitting
"https://a.com?x=1" and then "https://a.com?x=2" under a pattern matching
both accepts the first and rejects the second as a duplicate, leaving the
store count at 1. -/
theorem normalization_dedup_scenario :
    submit jsRegexModel { enabled := true, ignoredParams := ["x"] } ["a.com"] []
        "https://a.com?x=1" = (SubmitResult.accepted, ["https://a.com?x=1"]) ∧
      submit jsRegexModel { enabled := true, ignoredParams := ["x"] } ["a.com"]
        (submit jsRegexModel { enabled := true, ignoredParams := ["x"] } ["a.com"] []
          "https://a.com?x=1").2 "https://a.com?x=2" =
        (SubmitResult.rejectedDuplicate, ["https://a.com?x=1"]) ∧
      (submit jsRegexModel { enabled := true, ignoredParams := ["x"] } ["a.com"]
        (submit jsRegexModel { enabled := true, ignoredParams := ["x"] } ["a.com"] []
          "https://a.com?x=1").2 "https://a.com?x=2").2.length = 1 := by
  decide

/-- C3: `matchesAnyPattern` returns false when the url is empty or the
pattern list is empty, and otherwise returns true exactly when at least
one syntactically valid member of the list matches the url as a
case-insensitive regular expression. -/
theorem matchesAnyPattern_spec (E : RegexEngine) (url : String) (patterns : List String) :
    matchesAnyPattern E url patterns = true ↔
      url ≠ "" ∧ ∃ p ∈ patterns, E.compile p = true ∧ E.test p url = true := by
  unfold matchesAnyPattern
  rcases eq_or_ne url "" with hu | hu
  · subst hu
    simp
  · have h1 : (url == "") = false := beq_eq_false_iff_ne.mpr hu
    rcases eq_or_ne patterns [] with hp | hp
    · subst hp
      simp [hu]
    · have h2 : patterns.isEmpty = false := by simpa [List.isEmpty_iff] using hp
      simp [h1, h2, hu, List.any_eq_true, Bool.and_eq_true]

/-- C4: a pattern whose compilation fails is skipped without aborting the
match — removing it from the list does not change the result, so a url
matching a later valid pattern is still matched. -/
theorem matchesAnyPattern_skips_invalid (E : RegexEngine) (url : String)
    (ps1 ps2 : List String) (p : String) (hc : E.compile p = false) :
    matchesAnyPattern E url (ps1 ++ p :: ps2) = matchesAnyPattern E url (ps1 ++ ps2) := by
  unfold matchesAnyPattern
  rcases eq_or_ne url "" with hu | hu
  · subst hu
    simp
  · have h1 : (url == "") = false := beq_eq_false_iff_ne.mpr hu
    have hne : (ps1 ++ p :: ps2).isEmpty = false := by simp
    rcases eq_or_ne (ps1 ++ ps2) [] with h0 | h0
    · rcases List.append_eq_nil.mp h0 with ⟨e1, e2⟩
      subst e1
      subst e2
      simp [h1, hc]
    · have h2 : (ps1 ++ ps2).isEmpty = false := by simpa [List.isEmpty_iff] using h0
      simp [h1, hne, h2, List.any_append, List.any_cons, hc]

/-- Witness for C4 at the spec's Scenario D: with the invalid pattern
"(unclosed" followed by the valid pattern "abc", the url "abc.com" is
matched exactly as without the invalid pattern, the match succeeds, and
`addUrlToStorage` accepts the url. -/
theorem matchesAnyPattern_skips_invalid_witness :
    matchesAnyPattern jsRegexModel "abc.com" ["(unclosed", "abc"] =
        matchesAnyPattern jsRegexModel "abc.com" ["abc"] ∧
      matchesAnyPattern jsRegexModel "abc.com" ["(unclosed", "abc"] = true ∧
      (addUrlToStorage jsRegexModel
          { recordedUrls := [], targetPatterns := ["(unclosed", "abc"] }
          "abc.com").recordedUrls = ["abc.com"] :=
  ⟨matchesAnyPattern_skips_invalid jsRegexModel "abc.com" [] ["abc"] "(unclosed"
      (by decide),
    by decide, by decide⟩

/-- C5: when the url is not contained (under the active configuration),
`tryInsert` appends the raw url at the end and returns true; when it is
contained, `tryInsert` returns false and leaves the store untouched. -/
theorem tryInsert_insert_or_reject (cfg : NormalizationConfig) (store : List String)
    (url : String) :
    (containsUrl cfg store url = false →
        tryInsert cfg store url = (true, store ++ [url])) ∧
      (containsUrl cfg store url = true → tryInsert cfg store url = (false, store)) := by
  unfold tryInsert
  constructor <;> intro h <;> simp [h]

/-- Witness for C5 at the spec's Scenario A shape: a fresh url is
appended and reported inserted; resubmitting a recorded url is rejected
and the store is unchanged. -/
theorem tryInsert_insert_or_reject_witness :
    tryInsert rawConfig ["https://a.com/x.pdf"] "https://b.com/y.pdf" =
        (true, ["https://a.com/x.pdf", "https://b.com/y.pdf"]) ∧
      tryInsert rawConfig ["https://a.com/x.pdf"] "https://a.com/x.pdf" =
        (false, ["https://a.com/x.pdf"]) :=
  ⟨(tryInsert_insert_or_reject rawConfig ["https://a.com/x.pdf"] "https://b.com/y.pdf").1
      (by decide),
    (tryInsert_insert_or_reject rawConfig ["https://a.com/x.pdf"] "https://a.com/x.pdf").2
      (by decide)⟩

/-- C6: three urls accepted in order into an empty store are returned in
exactly that insertion order. -/
theorem insert_order_preserved (cfg : NormalizationConfig) (u1 u2 u3 : String)
    (h2 : (tryInsert cfg (tryInsert cfg [] u1).2 u2).1 = true)
    (h3 : (tryInsert cfg (tryInsert cfg (tryInsert cfg [] u1).2 u2).2 u3).1 = true) :
    (tryInsert cfg (tryInsert cfg (tryInsert cfg [] u1).2 u2).2 u3).2 = [u1, u2, u3] := by
  have e1 : (tryInsert cfg [] u1).2 = [u1] := by
    simp [tryInsert, containsUrl]
  rw [e1] at h2 h3 ⊢
  have c2 : containsUrl cfg [u1] u2 = false := by
    cases hc : containsUrl cfg [u1] u2 with
    | false => rfl
    | true => simp [tryInsert, hc] at h2
  have e2 : (tryInsert cfg [u1] u2).2 = [u1, u2] := by
    simp [tryInsert, c2]
  rw [e2] at h3 ⊢
  have c3 : containsUrl cfg [u1, u2] u3 = false := by
    cases hc : containsUrl cfg [u1, u2] u3 with
    | false => rfl
    | true => simp [tryInsert, hc] at h3
  simp [tryInsert, c3]

/-- Witness for C6: three distinct urls inserted into the empty store
under the raw (normalization-disabled) configuration come back in
insertion order. -/
theorem insert_order_preserved_witness :
    (tryInsert rawConfig (tryInsert rawConfig (tryInsert rawConfig [] "https://a.com/1").2
        "https://a.com/2").2 "https://a.com/3").2 =
      ["https://a.com/1", "https://a.com/2", "https://a.com/3"] :=
  insert_order_preserved rawConfig "https://a.com/1" "https://a.com/2" "https://a.com/3"
    (by decide) (by decide)

/-- C7: the clearRecordedUrls message empties the recorded sequence in
every state, and a subsequent read returns the empty list. -/
theorem clear_resets_store (E : RegexEngine) (s : BackgroundState) :
    (handleMessage E s Message.clearRecordedUrls).recordedUrls = [] ∧
      getRecordedUrlsResponse (handleMessage E s Message.clearRecordedUrls) = [] :=
  ⟨rfl, rfl⟩

/-- C8: the setTargetPatterns message replaces the active pattern list
with exactly the submitted entries whose trimmed form is non-empty, in
their original order; the filter consults only blankness, never regex
validity, so syntactically invalid entries are kept. -/
theorem setTargetPatterns_filters_blank (E : RegexEngine) (s : BackgroundState)
    (ps : List String) :
    (handleMessage E s (Message.setTargetPatterns ps)).targetPatterns =
      ps.filter (fun p => strTrim p != "") :=
  rfl

/-- C9: pattern matching is deterministic — its result depends only on
the url and the pattern list, so two background states agreeing on the
pattern list yield identical results regardless of any other state. -/
theorem matches_no_hidden_state (E : RegexEngine) (s1 s2 : BackgroundState) (url : String)
    (h : s1.targetPatterns = s2.targetPatterns) :
    matchesAnyPattern E url s1.targetPatterns =
      matchesAnyPattern E url s2.targetPatterns := by
  rw [h]

/-- Witness for C9: two states with the same patterns but different
recorded lists give the same match result. -/
theorem matches_no_hidden_state_witness :
    matchesAnyPattern jsRegexModel "abc.com"
        (BackgroundState.targetPatterns
          { recordedUrls := [], targetPatterns := ["abc"] }) =
      matchesAnyPattern jsRegexModel "abc.com"
        (BackgroundState.targetPatterns
          { recordedUrls := ["https://x.com"], targetPatterns := ["abc"] }) :=
  matches_no_hidden_state jsRegexModel
    { recordedUrls := [], targetPatterns := ["abc"] }
    { recordedUrls := ["https://x.com"], targetPatterns := ["abc"] } "abc.com" rfl

/-- Helper for the navigation guard: membership after `addUrlToStorage`
comes from the old store or is the url just submitted. -/
theorem addUrlToStorage_mem (E : RegexEngine) (s : BackgroundState) (url u : String)
    (h : u ∈ (addUrlToStorage E s url).recordedUrls) :
    u ∈ s.recordedUrls ∨ u = url := by
  unfold addUrlToStorage at h
  split at h
  · split at h
    · exact Or.inl h
    · rcases List.mem_append.mp h with h' | h'
      · exact Or.inl h'
      · exact Or.inr (List.mem_singleton.mp h')
  · exact Or.inl h

/-- C10: a url recorded through the webNavigation.onBeforeNavigate
listener was either already in the store, or the event came from the main
frame (frameId 0) and the url starts with "http://" or "https://"; iframe
or non-http(s) navigation events never reach the insertion path. -/
theorem navigation_only_http_main_frame (E : RegexEngine) (s : BackgroundState)
    (d : NavDetails) (u : String)
    (h : u ∈ (onBeforeNavigate E s d).recordedUrls) :
    u ∈ s.recordedUrls ∨
      (d.frameId = 0 ∧
        (strStarts u "http://" = true ∨ strStarts u "https://" = true)) := by
  unfold onBeforeNavigate at h
  split at h
  · rename_i hg
    rcases addUrlToStorage_mem E s d.url u h with h' | h'
    · exact Or.inl h'
    · subst h'
      rw [Bool.and_eq_true] at hg
      obtain ⟨hf, hs⟩ := hg
      refine Or.inr ⟨beq_iff_eq.mp hf, ?_⟩
      rwa [Bool.or_eq_true] at hs
  · exact Or.inl h

/-- Witness for C10: a main-frame https navigation that is recorded
satisfies the guard disjunction. -/
theorem navigation_only_http_main_frame_witness :
    "https://a.com/x.pdf" ∈
        ({ recordedUrls := [], targetPatterns := ["a.com"] } : BackgroundState).recordedUrls ∨
      ((⟨0, "https://a.com/x.pdf"⟩ : NavDetails).frameId = 0 ∧
        (strStarts "https://a.com/x.pdf" "http://" = true ∨
          strStarts "https://a.com/x.pdf" "https://" = true)) :=
  navigation_only_http_main_frame jsRegexModel
    { recordedUrls := [], targetPatterns := ["a.com"] }
    ⟨0, "https://a.com/x.pdf"⟩ "https://a.com/x.pdf" (by decide)
